import Mathlib

/-!
Shallow embedding of the Slack payroll bot (`src/app.js`, the current
variant of the script: constants `CONSTANTS`/`CSV_COLS`, `trackMessage`,
`readCsvFile`, `generateMessage`, `processCSVData`, and the
`reaction_added` / `file_shared` event handlers).

Modelling conventions:
  * A JavaScript number produced by `parseInt` is modelled as `Option Int`
    (`none` = NaN); one produced by `parseFloat` as `Option JsDec`
    (`none` = NaN), an exact decimal representation of the parsed value.
    The numeric parsers model the ECMAScript decimal grammar (sign, digits,
    fraction, exponent, leading whitespace, trailing garbage ignored); the
    hexadecimal `0x` prefix of `parseInt` and the `Infinity` literal of
    `parseFloat` do not occur in any input considered here and are out of
    the model.
  * A possibly-absent object field (`row[col]` yielding `undefined`) is an
    `Option String`; JavaScript string truthiness is `truthyStr`.
  * Wall-clock time is an explicit `Nat` parameter (milliseconds).  A
    `setTimeout`-scheduled deletion is modelled by liveness at read time:
    an entry inserted at time `t` with delay `d` is visible at time `now`
    iff `now < t + d`, which is exactly when its timer has not yet fired.
  * The Slack web API client is an oracle `client : Nat → SendOutcome`
    giving the outcome of the send attempted for the row at each index.
-/

namespace Payroll

/-! ## JavaScript primitive models -/

/-- Value of a decimal digit character, `none` for a non-digit. -/
def digitVal (c : Char) : Option Nat :=
  if '0' ≤ c ∧ c ≤ '9' then some (c.toNat - '0'.toNat) else none

/-- Consume a maximal run of decimal digits: returns the accumulated value,
the number of digits consumed, and the rest of the input. -/
def parseDigitsAux : List Char → Nat → Nat → Nat × Nat × List Char
  | [], acc, k => (acc, k, [])
  | c :: cs, acc, k =>
    match digitVal c with
    | some d => parseDigitsAux cs (acc * 10 + d) (k + 1)
    | none => (acc, k, c :: cs)

/-- Whitespace skipped by the ECMAScript numeric parsers. -/
def isJsSpace (c : Char) : Bool :=
  c = ' ' ∨ c = '\t' ∨ c = '\n' ∨ c = '\r'

/-- Optional leading sign. -/
def parseSign : List Char → Int × List Char
  | '-' :: cs => (-1, cs)
  | '+' :: cs => (1, cs)
  | cs => (1, cs)

/-- Model of JavaScript `parseInt(s)` on decimal input: `none` is NaN. -/
def jsParseInt (s : String) : Option Int :=
  let cs := s.toList.dropWhile isJsSpace
  let p := parseSign cs
  let d := parseDigitsAux p.2 0 0
  if d.2.1 = 0 then none else some (p.1 * d.1)

/-- A finite JavaScript number as produced by `parseFloat` on decimal
input, represented exactly: the value is `num / 10 ^ exp10`.  (The
binary-float rounding of the engine is immaterial for the comparisons
and decimal renderings performed by this program.) -/
structure JsDec where
  num : Int
  exp10 : Nat
deriving Repr, DecidableEq

/-- The rational value of a finite JavaScript decimal number. -/
def JsDec.toRat (x : JsDec) : ℚ := (x.num : ℚ) / 10 ^ x.exp10

/-- Model of JavaScript `parseFloat(s)`: `none` is NaN. -/
def jsParseFloat (s : String) : Option JsDec :=
  let cs := s.toList.dropWhile isJsSpace
  let p := parseSign cs
  let ip := parseDigitsAux p.2 0 0
  let fr :=
    match ip.2.2 with
    | '.' :: rest => parseDigitsAux rest 0 0
    | rest => (0, 0, rest)
  if ip.2.1 = 0 ∧ fr.2.1 = 0 then none
  else
    let mantissa : Int := p.1 * ((ip.1 * 10 ^ fr.2.1 + fr.1 : Nat) : Int)
    let e : Int :=
      (match fr.2.2 with
      | 'e' :: rest | 'E' :: rest =>
        let es := parseSign rest
        let ev := parseDigitsAux es.2 0 0
        if ev.2.1 = 0 then 0 else es.1 * (ev.1 : Int)
      | _ => 0) - (fr.2.1 : Int)
    if 0 ≤ e then some ⟨mantissa * 10 ^ e.toNat, 0⟩
    else some ⟨mantissa, (-e).toNat⟩

/-- Model of `parseFloat` applied to a possibly-`undefined` value:
`parseFloat(undefined)` is NaN. -/
def jsParseFloatOpt (o : Option String) : Option JsDec :=
  o.bind jsParseFloat

/-- Model of JavaScript `s.startsWith(pre)` on the character-list
representation. -/
def jsStartsWith (s pre : String) : Bool :=
  pre.toList.isPrefixOf s.toList

/-- JavaScript truthiness of a possibly-`undefined` string:
`undefined` and the empty string are falsy. -/
def truthyStr : Option String → Bool
  | none => false
  | some s => !s.isEmpty

/-- JavaScript `a || dflt` for a possibly-`undefined` string `a` with a
string default. -/
def jsOrStr (o : Option String) (dflt : String) : String :=
  match o with
  | none => dflt
  | some s => if s.isEmpty then dflt else s

/-- Model of `parseInt(row[col] || 0)`: an `undefined` or empty (falsy)
field gives `parseInt(0) = 0`; otherwise the string is parsed, possibly
to NaN. -/
def jsParseIntDef (o : Option String) : Option Int :=
  match o with
  | none => some 0
  | some s => if s.isEmpty then some 0 else jsParseInt s

/-- JavaScript `x > 0` for a possibly-NaN integer (`NaN > 0` is false). -/
def jsGtZero : Option Int → Bool
  | none => false
  | some n => decide (0 < n)

/-- JavaScript `isNaN(x) || x <= 0` for a possibly-NaN float.  Since the
denominator `10 ^ exp10` is positive, the value is nonpositive exactly
when the numerator is (`JsDec.toRat_nonpos_iff`). -/
def jsNaNOrNonPos : Option JsDec → Bool
  | none => true
  | some x => decide (x.num ≤ 0)

/-- Nonpositivity of the value of a finite JavaScript decimal number is
nonpositivity of its numerator. -/
lemma JsDec.toRat_nonpos_iff (x : JsDec) : x.toRat ≤ 0 ↔ x.num ≤ 0 := by
  unfold JsDec.toRat
  have hp : (0 : ℚ) < 10 ^ x.exp10 := by positivity
  rw [div_nonpos_iff]
  constructor
  · rintro (⟨h1, h2⟩ | ⟨h1, h2⟩)
    · exact absurd h2 (not_le.mpr hp)
    · exact_mod_cast h1
  · intro h
    exact Or.inr ⟨by exact_mod_cast h, le_of_lt hp⟩

/-- String interpolation of a possibly-NaN integer (`${x}`):
NaN prints as `"NaN"`. -/
def jsNumIntToString : Option Int → String
  | none => "NaN"
  | some n => toString n

/-- Remove factors of ten shared between the numerator and the decimal
exponent, to reach the canonical (shortest) decimal form; the fuel is
the exponent itself, which bounds the number of removable zeros. -/
def stripZeros : Nat → Int → Nat → Int × Nat
  | 0, n, e => (n, e)
  | fuel + 1, n, e =>
    if e = 0 then (n, 0)
    else if n % 10 = 0 then stripZeros fuel (n / 10) (e - 1)
    else (n, e)

/-- Decimal digits of `m` left-padded with zeros to the given width. -/
def padDigits (m width : Nat) : String :=
  let s := toString m
  String.mk (List.replicate (width - s.length) '0') ++ s

/-- String interpolation of a finite JavaScript number (`${x}`): the
shortest decimal notation (integer when the fractional part is zero,
otherwise no trailing zeros), as the engine prints the decimal values
arising here. -/
def jsDecToString (x : JsDec) : String :=
  let c := stripZeros x.exp10 x.num x.exp10
  if c.2 = 0 then toString c.1
  else
    let sign := if c.1 < 0 then "-" else ""
    sign ++ toString (c.1.natAbs / 10 ^ c.2) ++ "."
      ++ padDigits (c.1.natAbs % 10 ^ c.2) c.2

/-! ## CSV data model (`CSV_COLS`, `readCsvFile`) -/

/-- A parsed CSV row: column name ↦ raw cell string, as the `csv-parser`
stream produces it. -/
abbrev Row := List (String × String)

/-- Field access `row[col]`: `undefined` when the column is absent from the row. -/
def Row.get (r : Row) (c : String) : Option String :=
  (r.find? (fun p => p.1 == c)).map (fun p => p.2)

def SLACK_ID : String := "Slack User"
def NAME : String := "Name"
def SALARY : String := "Salary"
def FALTAS : String := "Faltas"
def FERIADOS : String := "Feriados Trabalhados"

/-- Model of `Object.values(CSV_COLS)`: the required header columns. -/
def expectedHeaders : List String := [SLACK_ID, NAME, SALARY, FALTAS, FERIADOS]

/-- The error rejected by `readCsvFile` on missing headers: the `code`
field (`'INVALID_HEADERS'`) and the missing-column list from which its
message string is built. -/
structure CsvError where
  code : String
  missing : List String
deriving Repr, DecidableEq

/-- The `message` of the header-validation error:
`Cabeçalhos obrigatórios ausentes no CSV: <joined list>`. -/
def csvErrorMessage (e : CsvError) : String :=
  "Cabeçalhos obrigatórios ausentes no CSV: " ++ String.intercalate ", " e.missing

/-- Model of `readCsvFile`: the input file is its header line plus the cell rows;
if any expected header is missing the promise rejects (no rows are
delivered), otherwise every data line becomes a `Row` keyed by the
headers. -/
def readCsvFile (headers : List String) (cells : List (List String)) :
    Except CsvError (List Row) :=
  let missingHeaders := expectedHeaders.filter (fun h => !headers.contains h)
  if missingHeaders.isEmpty then
    Except.ok (cells.map (fun l => headers.zip l))
  else
    Except.error ⟨"INVALID_HEADERS", missingHeaders⟩

/-! ## Message renderer (`generateMessage`) -/

/-- One Slack Block Kit block, reduced to its text content. -/
inductive Block where
  | header (text : String)
  | divider
  | sec (text : String)
deriving Repr, DecidableEq

/-- The fallback e-mail list hard-coded in `generateMessage`. -/
def defaultInvoiceEmails : List String :=
  ["corefone@domus.global", "administracion@corefone.us",
   "gilda.romero@corefone.us", "maximiliano.varin@corefone.us",
   "guilherme.santos@corefone.us", "mara.zuniga@corefone.us",
   "lucas.leite@corefone.us"]

/-- The full e-mail list: the `INVOICE_EMAILS` environment variable split
on commas and trimmed when it is set (truthy), else the default list. -/
def allInvoiceEmails (invoiceEmailsEnv : Option String) : List String :=
  match invoiceEmailsEnv with
  | none => defaultInvoiceEmails
  | some s =>
    if s.isEmpty then defaultInvoiceEmails
    else (s.splitOn ",").map (fun e => e.trim)

/-- Computation of `allInvoiceEmails[0] || 'corefone@domus.global'`. -/
def primaryEmail (invoiceEmailsEnv : Option String) : String :=
  match (allInvoiceEmails invoiceEmailsEnv).head? with
  | none => "corefone@domus.global"
  | some h => if h.isEmpty then "corefone@domus.global" else h

/-- Computation of `allInvoiceEmails.slice(1).map(e => \x60${e}\x60).join(', ')`. -/
def ccEmails (invoiceEmailsEnv : Option String) : String :=
  String.intercalate ", "
    (((allInvoiceEmails invoiceEmailsEnv).drop 1).map (fun e => "`" ++ e ++ "`"))

/-- Source-local `faltasText`: the pluralized absence phrase. -/
def faltasText (faltas : Option Int) : String :=
  if jsGtZero faltas then
    if faltas == some 1 then
      "hubo *" ++ jsNumIntToString faltas ++ " ausencia*"
    else
      "hubo *" ++ jsNumIntToString faltas ++ " ausencias*"
  else "*no hubo ausencias*"

/-- Source-local `feriadosText`: the pluralized worked-holiday phrase. -/
def feriadosText (feriados : Option Int) : String :=
  if jsGtZero feriados then
    if feriados == some 1 then
      "trabajó en *" ++ jsNumIntToString feriados ++ " día festivo*"
    else
      "trabajó en *" ++ jsNumIntToString feriados ++ " días festivos*"
  else "*no trabajó en ningún día festivo*"

/-- The `*Detalles adicionales:*` section text of the rendered message. -/
def detallesText (faltas feriados : Option Int) : String :=
  "*Detalles adicionales:*\n• Ausencias: " ++ faltasText faltas
    ++ "\n• Días festivos trabajados: " ++ feriadosText feriados

/-- Model of `generateMessage(name, salary, faltas, feriadosTrabalhados)`: the Block
Kit payload, block by block in source order.  `invoiceEmailsEnv` is the
`INVOICE_EMAILS` environment variable. -/
def generateMessage (name : String) (salary : JsDec) (faltas feriados : Option Int)
    (invoiceEmailsEnv : Option String) : List Block :=
  [Block.header "Detalles de Pago Mensual",
   Block.divider,
   Block.sec (":wave: ¡Hola, *" ++ name ++ "!*"),
   Block.sec "Esperamos que estés bien. Pasamos por aquí para compartir los detalles de tu salario correspondiente a este mes.",
   Block.divider,
   Block.sec ("*Valor a pagar:* *US$" ++ jsDecToString salary ++ "*"),
   Block.sec (detallesText faltas feriados),
   Block.sec "*Instrucciones para la emisión de la factura:*\n• La factura debe emitirse en el _último día hábil del mes_.\n• Al emitir la factura, incluye el mes de referencia. Ejemplo:",
   Block.sec "```\nHonorarios <mes> - Asesoramiento de atención al cliente\n```",
   Block.divider,
   Block.sec "Envía el anexo con el nombre en este formato:\n\"Nombre Apellido - Mes.Año\"",
   Block.sec "```\nPor ejemplo: Claudia Fonseca - 09.2025\n```",
   Block.divider,
   Block.sec ("*Si no hay pendientes*, puedes emitir la factura con los valores anteriores en el último día hábil del mes. Por favor, envíe la factura a: \n\n• *Destinatário principal*: `" ++ primaryEmail invoiceEmailsEnv ++ "`\n• *Com cópia (CC)*: " ++ ccEmails invoiceEmailsEnv ++ "."),
   Block.sec "Por favor, confirma que has recibido este mensaje y estás de acuerdo con los valores anteriores reaccionando con un ✅ (*check*).",
   Block.sec "¡Agradecemos tu atención y te deseamos un excelente trabajo!\nAtentamente,\n*Supervisión Corefone AR/LATAM*"]

/-! ## Confirmation tracker (`sentMessages`, `trackMessage`) and the
`reaction_added` handler -/

/-- Constant `CONSTANTS.MESSAGE_EXPIRATION_DAYS` in milliseconds. -/
def MESSAGE_EXPIRATION_MS : Nat := 7 * 24 * 60 * 60 * 1000

/-- Constant `CONSTANTS.PROCESSED_FILE_EXPIRATION_HOURS` in milliseconds. -/
def PROCESSED_FILE_EXPIRATION_MS : Nat := 24 * 60 * 60 * 1000

/-- One entry of the `sentMessages` map: key (message timestamp), the
stored `{ user, name }` data, and the insertion time that started its
`setTimeout` deletion timer. -/
structure TrackEntry where
  ts : String
  user : String
  name : String
  insertedAt : Nat
deriving Repr, DecidableEq

/-- The `sentMessages` map, in insertion order. -/
abbrev Tracker := List TrackEntry

/-- Model of `trackMessage(timestamp, data)`: `Map.set` semantics (replace the
value under an existing key, else append) recording the insertion time
of the scheduled deletion. -/
def trackMessage (now : Nat) (tr : Tracker) (ts user name : String) : Tracker :=
  if tr.any (fun e => e.ts == ts) then
    tr.map (fun e => if e.ts == ts then ⟨ts, user, name, now⟩ else e)
  else tr ++ [⟨ts, user, name, now⟩]

/-- Lookup `sentMessages.has(ts) && sentMessages.get(ts)` at wall-clock time
`now`: an entry is visible only while its deletion timer (scheduled
`MESSAGE_EXPIRATION_MS` after insertion) has not fired. -/
def trackerGet (now : Nat) (tr : Tracker) (ts : String) : Option (String × String) :=
  match tr.find? (fun e => e.ts == ts) with
  | none => none
  | some e =>
    if now < e.insertedAt + MESSAGE_EXPIRATION_MS then some (e.user, e.name)
    else none

/-- Constant `CONSTANTS.CONFIRMATION_REACTION`. -/
def confirmationReaction : String := "white_check_mark"

/-- A `reaction_added` event: emoji name, reacted-to message timestamp,
reacting user. -/
structure ReactionEvent where
  reaction : String
  itemTs : String
  user : String
deriving Repr, DecidableEq

/-- A `chat.postMessage` call: destination channel and text. -/
structure Notification where
  channel : String
  text : String
deriving Repr, DecidableEq

/-- The oversight notification text posted on a confirmed reaction. -/
def confirmationNoticeText (user name : String) : String :=
  "El agente " ++ name ++ " (<@" ++ user ++ ">) ha confirmado la recepción del salario y está de acuerdo con los valores."

/-- The `reaction_added` handler: on the confirmation emoji, if the
message is tracked and the reacting user is the recorded recipient, post
the oversight notification to the admin channel
(`ADMIN_CHANNEL_ID || CHANNEL_ID`, resolved as `adminChannel`); in every
other case do nothing.  The handler never mutates `sentMessages`. -/
def handleReactionAdded (adminChannel : String) (now : Nat) (tr : Tracker)
    (ev : ReactionEvent) : Option Notification :=
  if ev.reaction == confirmationReaction then
    match trackerGet now tr ev.itemTs with
    | some d =>
      if d.1 == ev.user then some ⟨adminChannel, confirmationNoticeText d.1 d.2⟩
      else none
    | none => none
  else none

/-- A sequence of `reaction_added` deliveries against the same tracker
state (the handler performs no tracker mutation, so the state is
constant): the notifications posted, in order. -/
def runReactions (adminChannel : String) (now : Nat) (tr : Tracker)
    (evs : List ReactionEvent) : List Notification :=
  evs.filterMap (handleReactionAdded adminChannel now tr)

/-! ## Duplicate-file guard (`processedFiles`, `file_shared` handler) -/

/-- The `processedFiles` set: file id with the insertion time of its
scheduled deletion. -/
abbrev ProcessedFiles := List (String × Nat)

/-- Membership `processedFiles.has(fileId)` at time `now`: a member only while its
24-hour deletion timer has not fired. -/
def fileGuardHas (now : Nat) (pf : ProcessedFiles) (fileId : String) : Bool :=
  pf.any (fun e => e.1 == fileId && decide (now < e.2 + PROCESSED_FILE_EXPIRATION_MS))

/-- The guard step at the top of the `file_shared` handler: an
already-processed file is skipped (`false`), a fresh one is marked
processed with a 24-hour expiry and handled (`true`). -/
def shouldProcess (now : Nat) (pf : ProcessedFiles) (fileId : String) :
    Bool × ProcessedFiles :=
  if fileGuardHas now pf fileId then (false, pf)
  else (true, pf ++ [(fileId, now)])

/-! ## Dispatch orchestrator (`processCSVData`) -/

/-- Outcome of one `chat.postMessage` send attempt: the message timestamp
`result.ts` on success, or the formatted failure reason
(`error.data ? (error.data.error || 'Erro de API') : error.message`) on a
caught transport error. -/
inductive SendOutcome where
  | ok (ts : String)
  | err (reason : String)
deriving Repr, DecidableEq

/-- The constant `text` fallback accompanying the block payload. -/
def FALLBACK_TEXT : String :=
  "Detalles de pago mensual. Por favor, visualice en un cliente Slack que soporte bloques de mensaje."

/-- A message posted to a recipient: destination (the Slack user id),
the Block Kit payload, and the fallback text. -/
structure SentMsg where
  channel : String
  blocks : List Block
  fallbackText : String
deriving Repr, DecidableEq

/-- The accumulator state of the `processCSVData` row loop:
`messagesSent`, `reportDetails`, `failedUsers`, the `sentMessages`
tracker, and the record of messages actually posted to recipients. -/
structure ProcState where
  messagesSent : Nat
  reportDetails : List String
  failedUsers : List String
  tracker : Tracker
  sent : List SentMsg
deriving Repr, DecidableEq

/-- The failed-list entry for a row rejected by validation:
`agentName || 'Linha desconhecida (dados inválidos)'`. -/
def invalidRowLabel (row : Row) : String :=
  jsOrStr (row.get NAME) "Linha desconhecida (dados inválidos)"

/-- The row-validation test of `processCSVData`, exactly the source
condition
`!slackUserId || !agentName || !slackUserId.startsWith('U') || isNaN(salary) || salary <= 0`. -/
def rowInvalid (row : Row) : Bool :=
  !truthyStr (row.get SLACK_ID) || !truthyStr (row.get NAME)
    || !jsStartsWith ((row.get SLACK_ID).getD "") "U"
    || jsNaNOrNonPos (jsParseFloatOpt (row.get SALARY))

/-- The per-recipient report line:
`• *name:* Salario: US$salary, Ausencias: faltas, Días Festivos: feriados`. -/
def detailLine (name : String) (salary : JsDec) (faltas feriados : Option Int) : String :=
  "• *" ++ name ++ ":* Salario: US$" ++ jsDecToString salary
    ++ ", Ausencias: " ++ jsNumIntToString faltas
    ++ ", Días Festivos: " ++ jsNumIntToString feriados

/-- One iteration of the `processCSVData` row loop, given the outcome the
Slack client would return for this row's send attempt.  An invalid row
only appends its failed-list entry; a valid row is rendered and sent:
on success the counters, the report details, the tracker and the sent
record grow, on a transport error only the failed list grows. -/
def processRow (invoiceEmailsEnv : Option String) (now : Nat)
    (outcome : SendOutcome) (st : ProcState) (row : Row) : ProcState :=
  if rowInvalid row then
    { st with failedUsers := st.failedUsers ++ [invalidRowLabel row] }
  else
    let slackUserId := (row.get SLACK_ID).getD ""
    let agentName := (row.get NAME).getD ""
    let salary := (jsParseFloatOpt (row.get SALARY)).getD ⟨0, 0⟩
    let faltas := jsParseIntDef (row.get FALTAS)
    let feriados := jsParseIntDef (row.get FERIADOS)
    match outcome with
    | SendOutcome.ok ts =>
      { messagesSent := st.messagesSent + 1
        reportDetails := st.reportDetails
          ++ [detailLine agentName salary faltas feriados]
        failedUsers := st.failedUsers
        tracker := trackMessage now st.tracker ts slackUserId agentName
        sent := st.sent ++ [⟨slackUserId,
          generateMessage agentName salary faltas feriados invoiceEmailsEnv,
          FALLBACK_TEXT⟩] }
    | SendOutcome.err reason =>
      { st with failedUsers := st.failedUsers
          ++ [agentName ++ " (Erro: " ++ reason ++ ")"] }

/-- The `processCSVData` row loop over the data list; `i` is the index of
the next row, used to query the client oracle. -/
def processRows (invoiceEmailsEnv : Option String) (now : Nat)
    (client : Nat → SendOutcome) : Nat → ProcState → List Row → ProcState
  | _, st, [] => st
  | i, st, row :: rest =>
    processRows invoiceEmailsEnv now client (i + 1)
      (processRow invoiceEmailsEnv now (client i) st row) rest

/-- The leading summary of the confirmation report: the sent/total counts
plus, when any row failed, the joined failed list.  Built only from the
counters and the failed list, never from the detail lines. -/
def summaryText (sent total : Nat) (failed : List String) : String :=
  let base := "¡Archivo procesado! ✅ Mensajes enviados: " ++ toString sent
    ++ "/" ++ toString total ++ "."
  if failed.isEmpty then base
  else base ++ "\n\n❌ *No se pudo enviar mensaje a:* "
    ++ String.intercalate ", " failed ++ "."

/-- The report-composition tail of `processCSVData`: returns the
confirmation message text (if a truthy channel id was given) and the
content of the uploaded detail file (if the detail lines exceeded the
20-line threshold). -/
def buildReport (totalRows : Nat) (st : ProcState) (channelId : Option String) :
    Option String × Option String :=
  if truthyStr channelId then
    let base := summaryText st.messagesSent totalRows st.failedUsers
    if st.reportDetails.length > 20 then
      (some (base ++ "\n\nUn resumen detallado fue enviado como archivo adjunto."),
       some ("Detalles de Salarios Enviados:\n\n"
         ++ String.intercalate "\n" st.reportDetails))
    else if st.reportDetails.length > 0 then
      (some (base ++ "\n\n*Detalles enviados:*\n"
         ++ String.intercalate "\n" st.reportDetails), none)
    else (some base, none)
  else (none, none)

/-- The observable result of one `processCSVData(data, channelId)` run. -/
structure RunResult where
  messagesSent : Nat
  reportDetails : List String
  failedUsers : List String
  tracker : Tracker
  sent : List SentMsg
  reportMessage : Option String
  uploadedFile : Option String
deriving Repr, DecidableEq

/-- Model of `processCSVData(data, channelId)`: run the row loop from the
empty accumulators over the initial tracker, then compose and deliver the
report. -/
def processCSVData (invoiceEmailsEnv : Option String) (now : Nat)
    (client : Nat → SendOutcome) (tracker0 : Tracker) (data : List Row)
    (channelId : Option String) : RunResult :=
  let st := processRows invoiceEmailsEnv now client 0
    ⟨0, [], [], tracker0, []⟩ data
  let rep := buildReport data.length st channelId
  ⟨st.messagesSent, st.reportDetails, st.failedUsers, st.tracker, st.sent,
    rep.1, rep.2⟩

/-- The parse-and-dispatch tail of the `file_shared` handler: a header
validation failure is caught and turned into the
`❌ Error de formato: <message>` notification to the triggering channel
(no row is processed, nothing is sent); otherwise the parsed rows are
dispatched. -/
def handleParsedFile (invoiceEmailsEnv : Option String) (now : Nat)
    (client : Nat → SendOutcome) (tracker0 : Tracker)
    (channelId : Option String) (headers : List String)
    (cells : List (List String)) : Except String RunResult :=
  match readCsvFile headers cells with
  | Except.error e =>
    Except.error ("❌ Error de formato: " ++ csvErrorMessage e)
  | Except.ok data =>
    Except.ok (processCSVData invoiceEmailsEnv now client tracker0 data channelId)

/-- Messages posted to recipients by a `handleParsedFile` outcome: none
when the read was rejected. -/
def sentOfOutcome : Except String RunResult → List SentMsg
  | Except.error _ => []
  | Except.ok r => r.sent

/-! ## Helper lemmas -/

/-- Any row satisfying one of the claim-side rejection conditions is
rejected by the source validation test. -/
lemma rowInvalid_of_conditions (row : Row)
    (h : truthyStr (row.get SLACK_ID) = false
      ∨ jsStartsWith ((row.get SLACK_ID).getD "") "U" = false
      ∨ truthyStr (row.get NAME) = false
      ∨ ∀ q : JsDec, jsParseFloatOpt (row.get SALARY) = some q → q.toRat ≤ 0) :
    rowInvalid row = true := by
  unfold rowInvalid
  rcases h with h | h | h | h
  · simp [h]
  · simp [h]
  · simp [h]
  · cases heq : jsParseFloatOpt (row.get SALARY) with
    | none => simp [jsNaNOrNonPos, heq]
    | some q => simp [jsNaNOrNonPos, heq, (JsDec.toRat_nonpos_iff q).mp (h q heq)]

/-! ## Claims -/

/-- C1: for every input row whose recipient identifier is missing (falsy)
or does not start with `'U'`, whose name is missing, or whose salary does
not parse to a positive number, `processCSVData` sends no message for the
row, appends one entry to the failed list, creates no tracker entry, and
continues with the remaining rows of the batch. -/
theorem C1_invalid_row_no_send_no_track
    (invoiceEmailsEnv : Option String) (now : Nat) (outcome : SendOutcome)
    (client : Nat → SendOutcome) (st : ProcState) (row : Row)
    (h : truthyStr (row.get SLACK_ID) = false
      ∨ jsStartsWith ((row.get SLACK_ID).getD "") "U" = false
      ∨ truthyStr (row.get NAME) = false
      ∨ ∀ q : JsDec, jsParseFloatOpt (row.get SALARY) = some q → q.toRat ≤ 0) :
    (processRow invoiceEmailsEnv now outcome st row).sent = st.sent
  ∧ (processRow invoiceEmailsEnv now outcome st row).tracker = st.tracker
  ∧ (processRow invoiceEmailsEnv now outcome st row).messagesSent = st.messagesSent
  ∧ (processRow invoiceEmailsEnv now outcome st row).failedUsers
      = st.failedUsers ++ [invalidRowLabel row]
  ∧ ∀ (i : Nat) (rest : List Row),
      processRows invoiceEmailsEnv now client i st (row :: rest)
        = processRows invoiceEmailsEnv now client (i + 1)
            (processRow invoiceEmailsEnv now (client i) st row) rest := by
  have hinv := rowInvalid_of_conditions row h
  refine ⟨?_, ?_, ?_, ?_, fun i rest => rfl⟩ <;> simp [processRow, hinv]

theorem C1_invalid_row_no_send_no_track_witness :
    (truthyStr (Row.get [(NAME, "Bob")] SLACK_ID) = false
      ∨ jsStartsWith ((Row.get [(NAME, "Bob")] SLACK_ID).getD "") "U" = false
      ∨ truthyStr (Row.get [(NAME, "Bob")] NAME) = false
      ∨ ∀ q : JsDec, jsParseFloatOpt (Row.get [(NAME, "Bob")] SALARY) = some q → q.toRat ≤ 0)
  ∧ ((processRow none 0 (SendOutcome.ok "1") ⟨0, [], [], [], []⟩ [(NAME, "Bob")]).sent = []
    ∧ (processRow none 0 (SendOutcome.ok "1") ⟨0, [], [], [], []⟩ [(NAME, "Bob")]).tracker = []
    ∧ (processRow none 0 (SendOutcome.ok "1") ⟨0, [], [], [], []⟩ [(NAME, "Bob")]).messagesSent = 0
    ∧ (processRow none 0 (SendOutcome.ok "1") ⟨0, [], [], [], []⟩ [(NAME, "Bob")]).failedUsers
        = [] ++ [invalidRowLabel [(NAME, "Bob")]]
    ∧ ∀ (i : Nat) (rest : List Row),
        processRows none 0 (fun _ => SendOutcome.ok "1") i ⟨0, [], [], [], []⟩ ([(NAME, "Bob")] :: rest)
          = processRows none 0 (fun _ => SendOutcome.ok "1") (i + 1)
              (processRow none 0 (SendOutcome.ok "1") ⟨0, [], [], [], []⟩ [(NAME, "Bob")]) rest) :=
  ⟨Or.inl (by decide),
   C1_invalid_row_no_send_no_track none 0 (SendOutcome.ok "1")
     (fun _ => SendOutcome.ok "1") ⟨0, [], [], [], []⟩ [(NAME, "Bob")]
     (Or.inl (by decide))⟩

/-- C2: the `reaction_added` handler honors a confirmation only on
identity match — for a tracked message `M` with recipient `U`, a
checkmark reaction on `M` by `U` posts the oversight notification built
from the tracked `{recipient, name}` entry; a checkmark by any other
user posts nothing; a reaction on an untracked timestamp posts nothing.
The handler is a total function (it never throws). -/
theorem C2_reaction_resolution_identity
    (adminChannel : String) (now : Nat) (tr : Tracker)
    (M U name other unknownTs : String)
    (htrack : trackerGet now tr M = some (U, name))
    (hother : other ≠ U)
    (hunknown : trackerGet now tr unknownTs = none) :
    handleReactionAdded adminChannel now tr ⟨confirmationReaction, M, U⟩
      = some ⟨adminChannel, confirmationNoticeText U name⟩
  ∧ handleReactionAdded adminChannel now tr ⟨confirmationReaction, M, other⟩ = none
  ∧ ∀ u : String, handleReactionAdded adminChannel now tr ⟨confirmationReaction, unknownTs, u⟩ = none := by
  refine ⟨?_, ?_, fun u => ?_⟩
  · simp [handleReactionAdded, htrack]
  · simp [handleReactionAdded, htrack]
    intro hcontra
    exact absurd hcontra.symm hother
  · simp [handleReactionAdded, hunknown]

/-- The concrete tracker used to witness C2. -/
def c2Tracker : Tracker := [⟨"111.222", "U1", "Ana", 0⟩]

theorem C2_reaction_resolution_identity_witness :
    trackerGet 5 c2Tracker "111.222" = some ("U1", "Ana")
  ∧ ("U2" : String) ≠ "U1"
  ∧ trackerGet 5 c2Tracker "999.000" = none
  ∧ (handleReactionAdded "C0" 5 c2Tracker ⟨confirmationReaction, "111.222", "U1"⟩
      = some ⟨"C0", confirmationNoticeText "U1" "Ana"⟩
    ∧ handleReactionAdded "C0" 5 c2Tracker ⟨confirmationReaction, "111.222", "U2"⟩ = none
    ∧ ∀ u : String, handleReactionAdded "C0" 5 c2Tracker ⟨confirmationReaction, "999.000", u⟩ = none) :=
  ⟨by decide, by decide, by decide,
   C2_reaction_resolution_identity "C0" 5 c2Tracker "111.222" "U1" "Ana" "U2" "999.000"
     (by decide) (by decide) (by decide)⟩

/-- C3 counterexample: the claim says an observed confirmation removes
the tracker entry so at most one oversight notification is ever produced
per tracked message; but the `reaction_added` handler never deletes from
`sentMessages`, so two successive checkmark reactions by the recipient
on the same tracked message produce two notifications. -/
theorem C3_counterexample :
    ¬ ((runReactions "C0" 1000 [⟨"111.222", "U1", "Ana", 0⟩]
        [⟨confirmationReaction, "111.222", "U1"⟩,
         ⟨confirmationReaction, "111.222", "U1"⟩]).length ≤ 1) := by
  decide

/-- C3 (amended): a Confirmation Tracker entry is not removed when its
confirmation is observed; it persists until its retention expiry, so
every one of `k` repeated checkmark reactions by the recipient on the
same live tracked message produces an oversight notification (`k`
notifications in total, not at most one). -/
theorem C3_no_removal_on_observe
    (adminChannel : String) (now : Nat) (tr : Tracker)
    (M U name : String) (k : Nat)
    (htrack : trackerGet now tr M = some (U, name)) :
    runReactions adminChannel now tr
        (List.replicate k ⟨confirmationReaction, M, U⟩)
      = List.replicate k ⟨adminChannel, confirmationNoticeText U name⟩ := by
  induction k with
  | zero => rfl
  | succ k ih =>
    simp only [List.replicate_succ, runReactions, List.filterMap_cons] at ih ⊢
    simp [handleReactionAdded, htrack, ih]

theorem C3_no_removal_on_observe_witness :
    trackerGet 1000 [⟨"111.222", "U1", "Ana", 0⟩] "111.222" = some ("U1", "Ana")
  ∧ runReactions "C0" 1000 [⟨"111.222", "U1", "Ana", 0⟩]
        (List.replicate 2 ⟨confirmationReaction, "111.222", "U1"⟩)
      = List.replicate 2 ⟨"C0", confirmationNoticeText "U1" "Ana"⟩ :=
  ⟨by decide,
   C3_no_removal_on_observe "C0" 1000 [⟨"111.222", "U1", "Ana", 0⟩]
     "111.222" "U1" "Ana" 2 (by decide)⟩

/-- C4: for every input file whose header line lacks at least one of the
required column names, `readCsvFile` rejects with the
`INVALID_HEADERS` error carrying the list of missing column names and
yields no row, and the file pipeline turns this into the format-error
notification without dispatching any message. -/
theorem C4_missing_headers_abort
    (headers : List String) (cells : List (List String))
    (h : ∃ c ∈ expectedHeaders, c ∉ headers) :
    ∃ missing : List String,
      missing = expectedHeaders.filter (fun c => !headers.contains c)
    ∧ missing ≠ []
    ∧ readCsvFile headers cells = Except.error ⟨"INVALID_HEADERS", missing⟩
    ∧ (∀ (invoiceEmailsEnv : Option String) (now : Nat)
        (client : Nat → SendOutcome) (tracker0 : Tracker)
        (channelId : Option String),
          handleParsedFile invoiceEmailsEnv now client tracker0 channelId headers cells
            = Except.error ("❌ Error de formato: "
                ++ csvErrorMessage ⟨"INVALID_HEADERS", missing⟩))
    ∧ ∀ (invoiceEmailsEnv : Option String) (now : Nat)
        (client : Nat → SendOutcome) (tracker0 : Tracker)
        (channelId : Option String),
          sentOfOutcome (handleParsedFile invoiceEmailsEnv now client tracker0
            channelId headers cells) = [] := by
  obtain ⟨c, hc, hcn⟩ := h
  have hmem : c ∈ expectedHeaders.filter (fun c => !headers.contains c) :=
    List.mem_filter.mpr ⟨hc, by simp [hcn]⟩
  have hne : (expectedHeaders.filter (fun c => !headers.contains c)).isEmpty = false := by
    cases hE : expectedHeaders.filter (fun c => !headers.contains c) with
    | nil => rw [hE] at hmem; cases hmem
    | cons a l => simp
  have hread : readCsvFile headers cells
      = Except.error ⟨"INVALID_HEADERS",
          expectedHeaders.filter (fun c => !headers.contains c)⟩ := by
    unfold readCsvFile
    rw [if_neg]
    simp
    exact ⟨c, hc, hcn⟩
  refine ⟨expectedHeaders.filter (fun c => !headers.contains c), rfl,
    List.ne_nil_of_mem hmem, hread, ?_, ?_⟩
  · intro invoiceEmailsEnv now client tracker0 channelId
    simp [handleParsedFile, hread]
  · intro invoiceEmailsEnv now client tracker0 channelId
    simp [handleParsedFile, hread, sentOfOutcome]

theorem C4_missing_headers_abort_witness :
    (∃ c ∈ expectedHeaders, c ∉ ["Slack User", "Name", "Faltas", "Feriados Trabalhados"])
  ∧ ∃ missing : List String,
      missing = expectedHeaders.filter
        (fun c => !(["Slack User", "Name", "Faltas", "Feriados Trabalhados"] : List String).contains c)
    ∧ missing ≠ []
    ∧ readCsvFile ["Slack User", "Name", "Faltas", "Feriados Trabalhados"] [["U1", "Ana", "2", "0"]]
        = Except.error ⟨"INVALID_HEADERS", missing⟩
    ∧ (∀ (invoiceEmailsEnv : Option String) (now : Nat)
        (client : Nat → SendOutcome) (tracker0 : Tracker)
        (channelId : Option String),
          handleParsedFile invoiceEmailsEnv now client tracker0 channelId
              ["Slack User", "Name", "Faltas", "Feriados Trabalhados"] [["U1", "Ana", "2", "0"]]
            = Except.error ("❌ Error de formato: "
                ++ csvErrorMessage ⟨"INVALID_HEADERS", missing⟩))
    ∧ ∀ (invoiceEmailsEnv : Option String) (now : Nat)
        (client : Nat → SendOutcome) (tracker0 : Tracker)
        (channelId : Option String),
          sentOfOutcome (handleParsedFile invoiceEmailsEnv now client tracker0
            channelId ["Slack User", "Name", "Faltas", "Feriados Trabalhados"]
            [["U1", "Ana", "2", "0"]]) = [] :=
  ⟨by decide,
   C4_missing_headers_abort ["Slack User", "Name", "Faltas", "Feriados Trabalhados"]
     [["U1", "Ana", "2", "0"]] (by decide)⟩

/-- C5: for every name, salary and e-mail configuration, the rendered
message carries the additional-details section, whose absence phrase is
the singular-negative form at count 0, the singular-positive form at
count 1, and the plural-positive form with the literal count at
`n ≥ 2`; the identical rule holds independently for the holidays-worked
count (the details text depends on the two counts separately). -/
theorem C5_pluralization
    (name : String) (salary : JsDec) (invoiceEmailsEnv : Option String)
    (f m : Option Int) (n k : Int) (hn : 2 ≤ n) (hk : 2 ≤ k) :
    (∀ a b : Option Int,
      Block.sec (detallesText a b) ∈ generateMessage name salary a b invoiceEmailsEnv)
  ∧ detallesText f m = "*Detalles adicionales:*\n• Ausencias: " ++ faltasText f
      ++ "\n• Días festivos trabajados: " ++ feriadosText m
  ∧ faltasText (some 0) = "*no hubo ausencias*"
  ∧ faltasText (some 1) = "hubo *1 ausencia*"
  ∧ faltasText (some n) = "hubo *" ++ toString n ++ " ausencias*"
  ∧ feriadosText (some 0) = "*no trabajó en ningún día festivo*"
  ∧ feriadosText (some 1) = "trabajó en *1 día festivo*"
  ∧ feriadosText (some k) = "trabajó en *" ++ toString k ++ " días festivos*" := by
  have hn0 : (0 : Int) < n := by omega
  have hn1 : n ≠ 1 := by omega
  have hk0 : (0 : Int) < k := by omega
  have hk1 : k ≠ 1 := by omega
  refine ⟨fun a b => ?_, rfl, rfl, rfl, ?_, rfl, rfl, ?_⟩
  · simp [generateMessage]
  · simp [faltasText, jsGtZero, jsNumIntToString, hn0, hn1]
  · simp [feriadosText, jsGtZero, jsNumIntToString, hk0, hk1]

theorem C5_pluralization_witness :
    (2 : Int) ≤ 2 ∧ (2 : Int) ≤ 3
  ∧ ((∀ a b : Option Int,
      Block.sec (detallesText a b) ∈ generateMessage "Ana" ⟨100, 0⟩ a b none)
    ∧ detallesText (some 5) none = "*Detalles adicionales:*\n• Ausencias: "
        ++ faltasText (some 5) ++ "\n• Días festivos trabajados: " ++ feriadosText none
    ∧ faltasText (some 0) = "*no hubo ausencias*"
    ∧ faltasText (some 1) = "hubo *1 ausencia*"
    ∧ faltasText (some 2) = "hubo *" ++ toString (2 : Int) ++ " ausencias*"
    ∧ feriadosText (some 0) = "*no trabajó en ningún día festivo*"
    ∧ feriadosText (some 1) = "trabajó en *1 día festivo*"
    ∧ feriadosText (some 3) = "trabajó en *" ++ toString (3 : Int) ++ " días festivos*") :=
  ⟨by decide, by decide,
   C5_pluralization "Ana" ⟨100, 0⟩ none (some 5) none 2 3 (by decide) (by decide)⟩

/-- C6: for a file identifier with no live guard entry, the first
`shouldProcess` check returns true and marks the file processed with a
24-hour expiry; every subsequent check for the same identifier before
that expiry returns false and leaves the guard state unchanged. -/
theorem C6_duplicate_file_guard
    (pf : ProcessedFiles) (fileId : String) (now later : Nat)
    (hfresh : fileGuardHas now pf fileId = false)
    (h1 : now ≤ later)
    (h2 : later < now + PROCESSED_FILE_EXPIRATION_MS) :
    (shouldProcess now pf fileId).1 = true
  ∧ (shouldProcess now pf fileId).2 = pf ++ [(fileId, now)]
  ∧ (shouldProcess later (shouldProcess now pf fileId).2 fileId).1 = false
  ∧ (shouldProcess later (shouldProcess now pf fileId).2 fileId).2
      = (shouldProcess now pf fileId).2 := by
  have hmarked : fileGuardHas later (pf ++ [(fileId, now)]) fileId = true := by
    unfold fileGuardHas
    rw [List.any_append]
    simp [h2]
  refine ⟨?_, ?_, ?_, ?_⟩ <;> simp [shouldProcess, hfresh, hmarked]

theorem C6_duplicate_file_guard_witness :
    fileGuardHas 0 [] "F123" = false
  ∧ (0 : Nat) ≤ 5
  ∧ (5 : Nat) < 0 + PROCESSED_FILE_EXPIRATION_MS
  ∧ ((shouldProcess 0 [] "F123").1 = true
    ∧ (shouldProcess 0 [] "F123").2 = [] ++ [("F123", 0)]
    ∧ (shouldProcess 5 (shouldProcess 0 [] "F123").2 "F123").1 = false
    ∧ (shouldProcess 5 (shouldProcess 0 [] "F123").2 "F123").2
        = (shouldProcess 0 [] "F123").2) :=
  ⟨by decide, by decide, by decide,
   C6_duplicate_file_guard [] "F123" 0 5 (by decide) (by decide) (by decide)⟩

/-! ### Tracker lookup after `trackMessage` -/

/-- Replacing the (present) entry under key `ts` makes the lookup find
the replacement. -/
lemma find?_map_replace (tr : Tracker) (ts : String) (newE : TrackEntry)
    (hts : newE.ts = ts) (h : tr.any (fun e => e.ts == ts) = true) :
    (tr.map (fun e => if e.ts == ts then newE else e)).find? (fun e => e.ts == ts)
      = some newE := by
  induction tr with
  | nil => simp at h
  | cons e tr ih =>
    by_cases he : e.ts = ts
    · simp [List.find?_cons, he, hts]
    · have htail : tr.any (fun e => e.ts == ts) = true := by
        simpa [he] using h
      have he2 : (e.ts == ts) = false := by simp [he]
      rw [List.map_cons, List.find?_cons]
      simp only [he2, Bool.false_eq_true, if_false]
      exact ih htail

/-- Appending a fresh entry under an absent key makes the lookup find it. -/
lemma find?_append_fresh (tr : Tracker) (ts : String) (newE : TrackEntry)
    (hts : newE.ts = ts) (h : tr.any (fun e => e.ts == ts) = false) :
    (tr ++ [newE]).find? (fun e => e.ts == ts) = some newE := by
  induction tr with
  | nil => simp [List.find?_cons, hts]
  | cons e tr ih =>
    have he : ¬ e.ts = ts := by
      intro hc
      simp [hc] at h
    have htail : tr.any (fun e => e.ts == ts) = false := by
      simpa [he] using h
    have he2 : (e.ts == ts) = false := by simp [he]
    rw [List.cons_append, List.find?_cons]
    simp only [he2]
    exact ih htail

/-- After a `trackMessage` insertion, the tracker lookup on the inserted
key finds exactly the freshly inserted entry. -/
lemma trackMessage_find (now : Nat) (tr : Tracker) (ts user name : String) :
    (trackMessage now tr ts user name).find? (fun e => e.ts == ts)
      = some ⟨ts, user, name, now⟩ := by
  unfold trackMessage
  by_cases h : tr.any (fun e => e.ts == ts) = true
  · rw [if_pos h]
    exact find?_map_replace tr ts ⟨ts, user, name, now⟩ rfl h
  · rw [if_neg h]
    exact find?_append_fresh tr ts ⟨ts, user, name, now⟩ rfl
      (by revert h; cases tr.any (fun e => e.ts == ts) <;> simp)

/-- C7: an entry registered by `trackMessage` is gone once the fixed
7-day retention window has elapsed, even if it was never resolved: the
tracker lookup returns nothing, and consequently a checkmark reaction on
that message identifier — by any user — produces no notification. -/
theorem C7_tracked_entry_expires
    (now t : Nat) (tr : Tracker) (ts user name : String)
    (hexp : now + MESSAGE_EXPIRATION_MS ≤ t) :
    trackerGet t (trackMessage now tr ts user name) ts = none
  ∧ ∀ (adminChannel u : String),
      handleReactionAdded adminChannel t (trackMessage now tr ts user name)
        ⟨confirmationReaction, ts, u⟩ = none := by
  have hget : trackerGet t (trackMessage now tr ts user name) ts = none := by
    unfold trackerGet
    rw [trackMessage_find]
    simp
    omega
  exact ⟨hget, fun adminChannel u => by simp [handleReactionAdded, hget]⟩

theorem C7_tracked_entry_expires_witness :
    0 + MESSAGE_EXPIRATION_MS ≤ 604800000
  ∧ (trackerGet 604800000 (trackMessage 0 [] "111.222" "U1" "Ana") "111.222" = none
    ∧ ∀ (adminChannel u : String),
        handleReactionAdded adminChannel 604800000 (trackMessage 0 [] "111.222" "U1" "Ana")
          ⟨confirmationReaction, "111.222", u⟩ = none) :=
  ⟨by decide,
   C7_tracked_entry_expires 0 604800000 [] "111.222" "U1" "Ana" (by decide)⟩

/-- C8: when the final report is composed with a (truthy) report channel,
a detail-line count at or below 20 keeps the detail lines inline in the
report text and uploads no document; a count above 20 uploads the full
detail as an attached document while the inline report carries only the
summary (counts and failed list) plus the attachment note, not the
detail lines. -/
theorem C8_report_threshold
    (invoiceEmailsEnv : Option String) (now : Nat) (client : Nat → SendOutcome)
    (tracker0 : Tracker) (data : List Row) (channelId : Option String)
    (res : RunResult)
    (hres : processCSVData invoiceEmailsEnv now client tracker0 data channelId = res)
    (hch : truthyStr channelId = true) :
    (res.reportDetails.length ≤ 20 →
        res.uploadedFile = none
      ∧ (0 < res.reportDetails.length →
          res.reportMessage = some (summaryText res.messagesSent data.length res.failedUsers
            ++ "\n\n*Detalles enviados:*\n"
            ++ String.intercalate "\n" res.reportDetails)))
  ∧ (20 < res.reportDetails.length →
        res.uploadedFile = some ("Detalles de Salarios Enviados:\n\n"
          ++ String.intercalate "\n" res.reportDetails)
      ∧ res.reportMessage = some (summaryText res.messagesSent data.length res.failedUsers
          ++ "\n\nUn resumen detallado fue enviado como archivo adjunto.")) := by
  subst hres
  unfold processCSVData
  simp only
  constructor
  · intro hle
    unfold buildReport
    simp only [hch, if_pos]
    have hnot : ¬ (processRows invoiceEmailsEnv now client 0 ⟨0, [], [], tracker0, []⟩ data).reportDetails.length > 20 := by
      simpa using hle
    rw [if_neg hnot]
    constructor
    · split <;> rfl
    · intro hpos
      rw [if_pos (by simpa using hpos)]
  · intro hgt
    unfold buildReport
    simp only [hch, if_pos]
    rw [if_pos (by simpa using hgt)]
    exact ⟨rfl, rfl⟩

theorem C8_report_threshold_witness :
    processCSVData none 0 (fun _ => SendOutcome.ok "1") [] [] (some "C")
      = ⟨0, [], [], [], [], some "¡Archivo procesado! ✅ Mensajes enviados: 0/0.", none⟩
  ∧ truthyStr (some "C") = true
  ∧ (((⟨0, [], [], [], [], some "¡Archivo procesado! ✅ Mensajes enviados: 0/0.", none⟩ : RunResult).reportDetails.length ≤ 20 →
        (⟨0, [], [], [], [], some "¡Archivo procesado! ✅ Mensajes enviados: 0/0.", none⟩ : RunResult).uploadedFile = none
      ∧ (0 < (⟨0, [], [], [], [], some "¡Archivo procesado! ✅ Mensajes enviados: 0/0.", none⟩ : RunResult).reportDetails.length →
          (⟨0, [], [], [], [], some "¡Archivo procesado! ✅ Mensajes enviados: 0/0.", none⟩ : RunResult).reportMessage
            = some (summaryText 0 ([] : List Row).length []
              ++ "\n\n*Detalles enviados:*\n"
              ++ String.intercalate "\n" (⟨0, [], [], [], [], some "¡Archivo procesado! ✅ Mensajes enviados: 0/0.", none⟩ : RunResult).reportDetails)))
    ∧ (20 < (⟨0, [], [], [], [], some "¡Archivo procesado! ✅ Mensajes enviados: 0/0.", none⟩ : RunResult).reportDetails.length →
        (⟨0, [], [], [], [], some "¡Archivo procesado! ✅ Mensajes enviados: 0/0.", none⟩ : RunResult).uploadedFile
          = some ("Detalles de Salarios Enviados:\n\n"
            ++ String.intercalate "\n" (⟨0, [], [], [], [], some "¡Archivo procesado! ✅ Mensajes enviados: 0/0.", none⟩ : RunResult).reportDetails)
      ∧ (⟨0, [], [], [], [], some "¡Archivo procesado! ✅ Mensajes enviados: 0/0.", none⟩ : RunResult).reportMessage
          = some (summaryText 0 ([] : List Row).length []
            ++ "\n\nUn resumen detallado fue enviado como archivo adjunto."))) :=
  ⟨by decide, by decide,
   C8_report_threshold none 0 (fun _ => SendOutcome.ok "1") [] [] (some "C")
     ⟨0, [], [], [], [], some "¡Archivo procesado! ✅ Mensajes enviados: 0/0.", none⟩
     (by decide) (by decide)⟩

/-- The concrete row used against C9: valid recipient, name and salary,
but an unparseable absence count. -/
def c9Row : Row :=
  [(SLACK_ID, "U1"), (NAME, "Ana"), (SALARY, "100"),
   (FALTAS, "abc"), (FERIADOS, "0")]

/-- C9 counterexample: the claim says a present-but-unparseable absence
count is treated as 0 in the report's per-recipient detail line as well;
but for the row with `Faltas = "abc"` the detail line renders the
JavaScript NaN (`parseInt('abc')`) literally as `NaN`, not as `0`. -/
theorem C9_counterexample :
    (processCSVData none 0 (fun _ => SendOutcome.ok "1.0") [] [c9Row] (some "C")).reportDetails
      = ["• *Ana:* Salario: US$100, Ausencias: NaN, Días Festivos: 0"]
  ∧ (processCSVData none 0 (fun _ => SendOutcome.ok "1.0") [] [c9Row] (some "C")).reportDetails
      ≠ ["• *Ana:* Salario: US$100, Ausencias: 0, Días Festivos: 0"] := by
  constructor
  · decide
  · decide

/-- C9 (amended): for every row that passes validation and is sent, an
absence or holidays-worked count that is absent (or empty, hence falsy)
is treated as 0 in both the rendered message and the report detail line;
a count that is present but unparseable is treated as 0 in the rendered
message (the negative phrasing is used, since `NaN > 0` is false) but is
rendered literally as `NaN` in the report's detail line. -/
theorem C9_count_defaults
    (invoiceEmailsEnv : Option String) (now : Nat) (ts : String)
    (st : ProcState) (row : Row) (hval : rowInvalid row = false) :
    (processRow invoiceEmailsEnv now (SendOutcome.ok ts) st row).reportDetails
      = st.reportDetails ++ [detailLine ((row.get NAME).getD "")
          ((jsParseFloatOpt (row.get SALARY)).getD ⟨0, 0⟩)
          (jsParseIntDef (row.get FALTAS)) (jsParseIntDef (row.get FERIADOS))]
  ∧ (processRow invoiceEmailsEnv now (SendOutcome.ok ts) st row).sent
      = st.sent ++ [⟨(row.get SLACK_ID).getD "",
          generateMessage ((row.get NAME).getD "")
            ((jsParseFloatOpt (row.get SALARY)).getD ⟨0, 0⟩)
            (jsParseIntDef (row.get FALTAS)) (jsParseIntDef (row.get FERIADOS))
            invoiceEmailsEnv,
          FALLBACK_TEXT⟩]
  ∧ (∀ o : Option String, o = none ∨ o = some "" → jsParseIntDef o = some 0)
  ∧ (∀ s : String, ¬ s.isEmpty → jsParseInt s = none → jsParseIntDef (some s) = none)
  ∧ faltasText (some 0) = "*no hubo ausencias*"
  ∧ faltasText none = "*no hubo ausencias*"
  ∧ feriadosText (some 0) = "*no trabajó en ningún día festivo*"
  ∧ feriadosText none = "*no trabajó en ningún día festivo*"
  ∧ jsNumIntToString (some 0) = "0"
  ∧ jsNumIntToString none = "NaN" := by
  refine ⟨?_, ?_, ?_, ?_, rfl, rfl, rfl, rfl, rfl, rfl⟩
  · simp [processRow, hval]
  · simp [processRow, hval]
  · rintro o (rfl | rfl) <;> rfl
  · intro s hs hnan
    simp [jsParseIntDef, hs, hnan]

theorem C9_count_defaults_witness :
    rowInvalid [(SLACK_ID, "U1"), (NAME, "Ana"), (SALARY, "100")] = false
  ∧ ((processRow none 0 (SendOutcome.ok "9") ⟨0, [], [], [], []⟩
        [(SLACK_ID, "U1"), (NAME, "Ana"), (SALARY, "100")]).reportDetails
      = [] ++ [detailLine ((Row.get [(SLACK_ID, "U1"), (NAME, "Ana"), (SALARY, "100")] NAME).getD "")
          ((jsParseFloatOpt (Row.get [(SLACK_ID, "U1"), (NAME, "Ana"), (SALARY, "100")] SALARY)).getD ⟨0, 0⟩)
          (jsParseIntDef (Row.get [(SLACK_ID, "U1"), (NAME, "Ana"), (SALARY, "100")] FALTAS))
          (jsParseIntDef (Row.get [(SLACK_ID, "U1"), (NAME, "Ana"), (SALARY, "100")] FERIADOS))]
    ∧ (processRow none 0 (SendOutcome.ok "9") ⟨0, [], [], [], []⟩
        [(SLACK_ID, "U1"), (NAME, "Ana"), (SALARY, "100")]).sent
      = [] ++ [⟨(Row.get [(SLACK_ID, "U1"), (NAME, "Ana"), (SALARY, "100")] SLACK_ID).getD "",
          generateMessage ((Row.get [(SLACK_ID, "U1"), (NAME, "Ana"), (SALARY, "100")] NAME).getD "")
            ((jsParseFloatOpt (Row.get [(SLACK_ID, "U1"), (NAME, "Ana"), (SALARY, "100")] SALARY)).getD ⟨0, 0⟩)
            (jsParseIntDef (Row.get [(SLACK_ID, "U1"), (NAME, "Ana"), (SALARY, "100")] FALTAS))
            (jsParseIntDef (Row.get [(SLACK_ID, "U1"), (NAME, "Ana"), (SALARY, "100")] FERIADOS))
            none,
          FALLBACK_TEXT⟩]
    ∧ (∀ o : Option String, o = none ∨ o = some "" → jsParseIntDef o = some 0)
    ∧ (∀ s : String, ¬ s.isEmpty → jsParseInt s = none → jsParseIntDef (some s) = none)
    ∧ faltasText (some 0) = "*no hubo ausencias*"
    ∧ faltasText none = "*no hubo ausencias*"
    ∧ feriadosText (some 0) = "*no trabajó en ningún día festivo*"
    ∧ feriadosText none = "*no trabajó en ningún día festivo*"
    ∧ jsNumIntToString (some 0) = "0"
    ∧ jsNumIntToString none = "NaN") :=
  ⟨by decide,
   C9_count_defaults none 0 "9" ⟨0, [], [], [], []⟩
     [(SLACK_ID, "U1"), (NAME, "Ana"), (SALARY, "100")] (by decide)⟩

/-- Each row loop iteration either registers one successful send (with
one new report detail line and one recorded message) or appends exactly
one failed-list entry, leaving everything else unchanged. -/
lemma processRow_step (invoiceEmailsEnv : Option String) (now : Nat)
    (outcome : SendOutcome) (st : ProcState) (row : Row) :
    ((processRow invoiceEmailsEnv now outcome st row).messagesSent = st.messagesSent + 1
      ∧ (processRow invoiceEmailsEnv now outcome st row).failedUsers = st.failedUsers
      ∧ (processRow invoiceEmailsEnv now outcome st row).reportDetails.length
          = st.reportDetails.length + 1
      ∧ (processRow invoiceEmailsEnv now outcome st row).sent.length = st.sent.length + 1)
  ∨ ((processRow invoiceEmailsEnv now outcome st row).messagesSent = st.messagesSent
      ∧ (processRow invoiceEmailsEnv now outcome st row).failedUsers.length
          = st.failedUsers.length + 1
      ∧ (processRow invoiceEmailsEnv now outcome st row).reportDetails = st.reportDetails
      ∧ (processRow invoiceEmailsEnv now outcome st row).sent = st.sent) := by
  by_cases hv : rowInvalid row = true
  · exact Or.inr (by simp [processRow, hv])
  · cases outcome with
    | ok ts => exact Or.inl (by simp [processRow, hv])
    | err reason => exact Or.inr (by simp [processRow, hv])

/-- Accounting invariant of the row loop: messages sent plus failures
grow by exactly the number of rows, and the detail lines and recorded
messages track the sent counter. -/
lemma processRows_accounting (invoiceEmailsEnv : Option String) (now : Nat)
    (client : Nat → SendOutcome) :
    ∀ (data : List Row) (i : Nat) (st : ProcState),
      (processRows invoiceEmailsEnv now client i st data).messagesSent
          + (processRows invoiceEmailsEnv now client i st data).failedUsers.length
        = st.messagesSent + st.failedUsers.length + data.length
    ∧ (processRows invoiceEmailsEnv now client i st data).reportDetails.length
          + st.messagesSent
        = st.reportDetails.length
          + (processRows invoiceEmailsEnv now client i st data).messagesSent
    ∧ (processRows invoiceEmailsEnv now client i st data).sent.length + st.messagesSent
        = st.sent.length + (processRows invoiceEmailsEnv now client i st data).messagesSent := by
  intro data
  induction data with
  | nil => intro i st; simp [processRows]
  | cons row rest ih =>
    intro i st
    have hstep := processRow_step invoiceEmailsEnv now (client i) st row
    have hrec := ih (i + 1) (processRow invoiceEmailsEnv now (client i) st row)
    simp only [processRows]
    rcases hstep with ⟨h1, h2, h3, h4⟩ | ⟨h1, h2, h3, h4⟩ <;>
      · obtain ⟨g1, g2, g3⟩ := hrec
        simp only [h1, h2, h3, h4, List.length_cons] at g1 g2 g3 ⊢
        refine ⟨by omega, by omega, by omega⟩

/-- C10: one `processCSVData` run accounts for every input row exactly
once — the number of messages sent plus the number of failed-list
entries equals the total row count, each successful send contributes
exactly one detail line and one recorded message, each row step either
succeeds or appends exactly one failed entry, and the report's summary
states `sentCount/totalRows` built from exactly these two numbers. -/
theorem C10_batch_accounting (invoiceEmailsEnv : Option String) (now : Nat)
    (client : Nat → SendOutcome) (tracker0 : Tracker) (data : List Row)
    (channelId : Option String) :
    (processCSVData invoiceEmailsEnv now client tracker0 data channelId).messagesSent
        + (processCSVData invoiceEmailsEnv now client tracker0 data channelId).failedUsers.length
      = data.length
  ∧ (processCSVData invoiceEmailsEnv now client tracker0 data channelId).reportDetails.length
      = (processCSVData invoiceEmailsEnv now client tracker0 data channelId).messagesSent
  ∧ (processCSVData invoiceEmailsEnv now client tracker0 data channelId).sent.length
      = (processCSVData invoiceEmailsEnv now client tracker0 data channelId).messagesSent
  ∧ (∀ (outcome : SendOutcome) (st : ProcState) (row : Row),
      ((processRow invoiceEmailsEnv now outcome st row).messagesSent = st.messagesSent + 1
        ∧ (processRow invoiceEmailsEnv now outcome st row).failedUsers = st.failedUsers)
      ∨ ((processRow invoiceEmailsEnv now outcome st row).messagesSent = st.messagesSent
        ∧ (processRow invoiceEmailsEnv now outcome st row).failedUsers.length
            = st.failedUsers.length + 1))
  ∧ (truthyStr channelId = true →
      ∃ rest : String,
        (processCSVData invoiceEmailsEnv now client tracker0 data channelId).reportMessage
          = some (summaryText
              (processCSVData invoiceEmailsEnv now client tracker0 data channelId).messagesSent
              data.length
              (processCSVData invoiceEmailsEnv now client tracker0 data channelId).failedUsers
              ++ rest)) := by
  obtain ⟨g1, g2, g3⟩ := processRows_accounting invoiceEmailsEnv now client data 0
    ⟨0, [], [], tracker0, []⟩
  refine ⟨?_, ?_, ?_, ?_, ?_⟩
  · simpa [processCSVData] using g1
  · have := g2
    simp [processCSVData] at this ⊢
    omega
  · have := g3
    simp [processCSVData] at this ⊢
    omega
  · intro outcome st row
    rcases processRow_step invoiceEmailsEnv now outcome st row with
      ⟨h1, h2, _, _⟩ | ⟨h1, h2, _, _⟩
    · exact Or.inl ⟨h1, h2⟩
    · exact Or.inr ⟨h1, h2⟩
  · intro hch
    unfold processCSVData buildReport
    simp only [hch, if_pos]
    split
    · exact ⟨"\n\nUn resumen detallado fue enviado como archivo adjunto.", rfl⟩
    · split
      · exact ⟨"\n\n*Detalles enviados:*\n" ++ String.intercalate "\n"
          (processRows invoiceEmailsEnv now client 0 ⟨0, [], [], tracker0, []⟩ data).reportDetails,
          by rw [String.append_assoc]⟩
      · exact ⟨"", by rw [String.append_empty]⟩

/-- The concrete rows used to witness C10: one valid row and one invalid
row. -/
def c10Rows : List Row :=
  [[(SLACK_ID, "U1"), (NAME, "Ana"), (SALARY, "100")], [(NAME, "Leo")]]

theorem C10_batch_accounting_witness :
    (processCSVData none 0 (fun i => if i = 0 then SendOutcome.ok "1" else SendOutcome.err "x")
        [] c10Rows (some "C")).messagesSent
      + (processCSVData none 0 (fun i => if i = 0 then SendOutcome.ok "1" else SendOutcome.err "x")
        [] c10Rows (some "C")).failedUsers.length
      = c10Rows.length
  ∧ (processCSVData none 0 (fun i => if i = 0 then SendOutcome.ok "1" else SendOutcome.err "x")
        [] c10Rows (some "C")).reportDetails.length
      = (processCSVData none 0 (fun i => if i = 0 then SendOutcome.ok "1" else SendOutcome.err "x")
        [] c10Rows (some "C")).messagesSent
  ∧ (processCSVData none 0 (fun i => if i = 0 then SendOutcome.ok "1" else SendOutcome.err "x")
        [] c10Rows (some "C")).sent.length
      = (processCSVData none 0 (fun i => if i = 0 then SendOutcome.ok "1" else SendOutcome.err "x")
        [] c10Rows (some "C")).messagesSent
  ∧ (∀ (outcome : SendOutcome) (st : ProcState) (row : Row),
      ((processRow none 0 outcome st row).messagesSent = st.messagesSent + 1
        ∧ (processRow none 0 outcome st row).failedUsers = st.failedUsers)
      ∨ ((processRow none 0 outcome st row).messagesSent = st.messagesSent
        ∧ (processRow none 0 outcome st row).failedUsers.length
            = st.failedUsers.length + 1))
  ∧ (truthyStr (some "C") = true →
      ∃ rest : String,
        (processCSVData none 0 (fun i => if i = 0 then SendOutcome.ok "1" else SendOutcome.err "x")
            [] c10Rows (some "C")).reportMessage
          = some (summaryText
              (processCSVData none 0 (fun i => if i = 0 then SendOutcome.ok "1" else SendOutcome.err "x")
                [] c10Rows (some "C")).messagesSent
              c10Rows.length
              (processCSVData none 0 (fun i => if i = 0 then SendOutcome.ok "1" else SendOutcome.err "x")
                [] c10Rows (some "C")).failedUsers
              ++ rest)) :=
  C10_batch_accounting none 0
    (fun i => if i = 0 then SendOutcome.ok "1" else SendOutcome.err "x")
    [] c10Rows (some "C")

end Payroll
